import Mathlib

set_option maxRecDepth 100000

/-!
# CrowdLightTransmitter — verification of the core data plane

Shallow embedding of the E1.31 frame parser (`E131Handler::parsePacket`),
the radio link framer (`RadioLink::sendDmxPacket`), the configuration
loader (`ConfigManager::loadConfig`), the menu state machine
(`DisplayMgr::handleButtonPress`) and the producer's forwarding
computation (`networkLoop` in `main.cpp`), together with theorems about
the specified behaviour.

Buffers and datagrams are modelled as `List Nat` of byte values; the
`uint8_t` / `uint16_t` machine arithmetic of the C++ source is made
explicit with `% 256` / `% 65536` where truncation can occur.
-/

namespace CrowdLight

/-! ## Constants from `include/Config.h` -/

def E131_HEADER_SIZE : Nat := 126
def E131_UNIVERSE_OFFSET : Nat := 113
def E131_LENGTH_OFFSET : Nat := 123
def DMX_STARTCODE : Nat := 0
def DMX_MAX_CHANNELS : Nat := 512
def E131_MAX_PACKET_SIZE : Nat := E131_HEADER_SIZE + DMX_MAX_CHANNELS
def MIN_UNIVERSE : Nat := 1
def DEFAULT_UNIVERSE : Nat := 129
def MAX_UNIVERSE : Nat := 63999
def MIN_NUM_LEDS : Nat := 0
def DEFAULT_NUM_LEDS : Nat := 10
def MAX_NUM_LEDS : Nat := 50
def CHAN_PER_LED : Nat := 3

/-- Value of `DEFAULT_IP 192,168,0,100` packed into the 32-bit integer
an Arduino `IPAddress` converts to (first octet in the least
significant byte). -/
def DEFAULT_IP_U32 : Nat := 192 + 168 * 256 + 0 * 65536 + 100 * 16777216

/-! ## `E131Handler::parsePacket` (src/lib/E131Handler/E131Handler.cpp)

The handler owns a persistent 638-byte `_packetBuffer`; `_udp.read`
overwrites its first `min(packetSize, E131_MAX_PACKET_SIZE)` bytes with
the received datagram and leaves the rest of the buffer as it was.  We
model the buffer state after the read explicitly, so that the
dependence of the result on stale buffer contents is visible. -/

/-- Buffer contents after `_udp.read(_packetBuffer, min(packetSize,
E131_MAX_PACKET_SIZE))`: the datagram overwrites the prefix, the prior
buffer contents survive beyond the received length. -/
def readInto (prior dg : List Nat) : List Nat :=
  let n := min dg.length E131_MAX_PACKET_SIZE
  dg.take n ++ prior.drop n

/-- Result of one `parsePacket` call.  The C++ function returns `0` on
every rejection; the distinct constructors record which of the three
mutually exclusive rejection branches of the source fired (the branches
are distinguishable in the source by their log messages). -/
inductive ParseResult where
  | noPacket
  | tooSmall
  | universeMismatch
  | badStartCode
  | success (dmxLen : Nat) (channels : List Nat)
  deriving DecidableEq, Repr

/-- Source line `uint16_t rxUniverse = (_packetBuffer[E131_UNIVERSE_OFFSET]
<< 8) | _packetBuffer[E131_UNIVERSE_OFFSET+1];` — on the `uint8_t`
values the buffer holds, `(hi << 8) | lo` equals `hi * 256 + lo`, and
the assignment to a `uint16_t` truncates mod 2^16. -/
def rxUniverseOf (prior dg : List Nat) : Nat :=
  ((readInto prior dg).getD E131_UNIVERSE_OFFSET 0 * 256 +
    (readInto prior dg).getD (E131_UNIVERSE_OFFSET + 1) 0) % 65536

/-- Byte read by the start-code check
`_packetBuffer[E131_LENGTH_OFFSET+2]`. -/
def startCodeOf (prior dg : List Nat) : Nat :=
  (readInto prior dg).getD (E131_LENGTH_OFFSET + 2) 0

/-- Value of the 16-bit big-endian DMP length field
`(_packetBuffer[E131_LENGTH_OFFSET] << 8) |
_packetBuffer[E131_LENGTH_OFFSET+1]` (before the `- 1`). -/
def lengthFieldOf (prior dg : List Nat) : Nat :=
  (readInto prior dg).getD E131_LENGTH_OFFSET 0 * 256 +
    (readInto prior dg).getD (E131_LENGTH_OFFSET + 1) 0

/-- Model of `E131Handler::parsePacket(uint8_t* dmxOutputBuffer)`.

`prior` is the `_packetBuffer` contents before the call, `dg` the
received datagram (`packetSize = dg.length`), `expectedUniverse` the
handler's configured `_universe`, `out` the caller's `dmxOutputBuffer`.
Returns the parse result together with the output buffer after the
call.

The `uint16_t dmxLen = (field) - 1` subtraction is 16-bit wrapping:
`(field + 65535) % 65536`. -/
def parsePacket (prior dg : List Nat) (expectedUniverse : Nat) (out : List Nat) :
    ParseResult × List Nat :=
  if dg.length > 0 then
    if dg.length < E131_HEADER_SIZE then
      (ParseResult.tooSmall, out)
    else if rxUniverseOf prior dg ≠ expectedUniverse then
      (ParseResult.universeMismatch, out)
    else if startCodeOf prior dg ≠ DMX_STARTCODE then
      (ParseResult.badStartCode, out)
    else
      let dmxLen0 := (lengthFieldOf prior dg + 65535) % 65536
      let dmxLen := if dmxLen0 > DMX_MAX_CHANNELS then DMX_MAX_CHANNELS else dmxLen0
      let channels := ((readInto prior dg).drop E131_HEADER_SIZE).take dmxLen
      (ParseResult.success dmxLen channels, channels ++ out.drop dmxLen)
  else
    (ParseResult.noPacket, out)

/-! ## `RadioLink::sendDmxPacket` (src/lib/RadioLink/RadioLink.cpp) -/

/-- The running checksum of `sendDmxPacket`: initialised to the marker
`0xAA`, then XOR-folded with every payload byte in order. -/
def xorChecksum (payload : List Nat) : Nat :=
  payload.foldl (fun acc b => Nat.xor acc b) 0xAA

/-- Model of `RadioLink::sendDmxPacket(uint8_t* dmxData, uint16_t length)` with
`payload` the first `length` bytes of `dmxData`.  The serial writes are
collected into the returned byte list; `none` models the
`length > 255` branch, which logs an error and returns without writing
a single byte. -/
def sendDmxPacket (payload : List Nat) : Option (List Nat) :=
  if payload.length > 255 then
    none
  else
    some (0xAA :: payload.length :: (payload ++ [xorChecksum payload]))

inductive DecodeError where
  | badMarker
  | truncated
  | checksumMismatch
  deriving DecidableEq, Repr

/-- Modelled from the spec: the repository only transmits and contains
no decoder; §4.2 specifies one for symmetry and testability.  "Given a
byte stream, return a frame once `marker, length, length-bytes,
checksum` have all been read, verify checksum, fail with `BadMarker`,
`Truncated`, or `ChecksumMismatch` as appropriate."  The checksum is
the XOR-fold of the marker byte followed by every payload byte. -/
def decodeFrame (stream : List Nat) : Except DecodeError (List Nat) :=
  match stream with
  | [] => Except.error DecodeError.truncated
  | marker :: rest =>
    if marker ≠ 0xAA then
      Except.error DecodeError.badMarker
    else
      match rest with
      | [] => Except.error DecodeError.truncated
      | len :: rest2 =>
        if rest2.length < len + 1 then
          Except.error DecodeError.truncated
        else
          let payload := rest2.take len
          let cs := rest2.getD len 0
          if cs ≠ xorChecksum payload then
            Except.error DecodeError.checksumMismatch
          else
            Except.ok payload

/-! ## Shared channel state (spec §4.3)

`src/src/main.cpp` publishes through the globals `sharedDmxData`,
`lastPacketTime` and `packetReceived` (set in `networkLoop` after a
validated frame), but no consumer read/clear of `packetReceived`
exists anywhere under `src/` — the flag is written and never read. -/

structure SharedChannelSnapshot where
  data : List Nat
  length : Nat
  receivedAtMonotonicMs : Nat
  hasUnseenUpdate : Bool
  deriving DecidableEq, Repr

/-- Producer-side publication, as performed by `networkLoop` on a
validated frame: the snapshot is replaced wholesale and the
new-data flag is set. -/
def publish (d : List Nat) (len t : Nat) (_s : SharedChannelSnapshot) : SharedChannelSnapshot :=
  { data := d, length := len, receivedAtMonotonicMs := t, hasUnseenUpdate := true }

/-- Modelled from the spec: no `consume` exists in the source (the
`packetReceived` flag is never read or cleared by the display task).
§4.3: "`consume() -> (hasUpdate, length, dataView)` — consumer-only;
reads the snapshot and atomically clears `hasUnseenUpdate` as part of
the same observation, returning what was true just before the
clear." -/
def consume (s : SharedChannelSnapshot) :
    (Bool × Nat × List Nat) × SharedChannelSnapshot :=
  ((s.hasUnseenUpdate, s.length, s.data), { s with hasUnseenUpdate := false })

/-! ## Device configuration (`ConfigData.h`, `ConfigManager`, unnamed/part_001) -/

structure DeviceConfig where
  universeId : Nat  -- `uint16_t universe`
  numLeds : Nat     -- `uint16_t numLeds`
  ipAddress : Nat   -- `uint32_t ipAddress`
  useDhcp : Bool
  deriving DecidableEq, Repr

/-- Outcome of the `nvs_get_blob` read in `ConfigManager::loadConfig`. -/
inductive NvsReadResult where
  | notFound
  | readError
  | ok (stored : DeviceConfig)
  deriving DecidableEq, Repr

/-- Model of `ConfigManager::loadConfig(DeviceConfig& config)`.

`config` is the caller's struct before the call (in `main.cpp` the
zero-initialised global `deviceConfig`).  On `ESP_ERR_NVS_NOT_FOUND`
the defaults branch assigns `universe`, `useDhcp` and `ipAddress` —
and nothing else: `numLeds` keeps the caller's prior value, and the
`saveConfig(config)` call that follows does not modify the in-memory
struct.  On any other read error the struct is also left as it was. -/
def loadConfig (nvs : NvsReadResult) (config : DeviceConfig) : DeviceConfig :=
  match nvs with
  | NvsReadResult.notFound =>
      { config with
          universeId := DEFAULT_UNIVERSE,
          useDhcp := false,            -- DEFAULT_DHCP_STATUS
          ipAddress := DEFAULT_IP_U32 }
  | NvsReadResult.readError => config
  | NvsReadResult.ok stored => stored

/-- The zero-initialised global `DeviceConfig deviceConfig;` of
`main.cpp` (static storage duration). -/
def zeroDeviceConfig : DeviceConfig :=
  { universeId := 0, numLeds := 0, ipAddress := 0, useDhcp := false }

/-! ## Menu state machine (`DisplayMgr`, unnamed/part_005) -/

inductive ScreenState where
  | boot
  | statusIP
  | statusE131
  | statusSensors
  | menuMain
  | editUniverse
  | editNumLeds
  | editIP
  deriving DecidableEq, Repr

/-- Position of each enumerator in the C++ `enum ScreenState`
declaration order, used by the source's `<=` comparisons. -/
def ScreenState.toIdx : ScreenState → Nat
  | ScreenState.boot => 0
  | ScreenState.statusIP => 1
  | ScreenState.statusE131 => 2
  | ScreenState.statusSensors => 3
  | ScreenState.menuMain => 4
  | ScreenState.editUniverse => 5
  | ScreenState.editNumLeds => 6
  | ScreenState.editIP => 7

inductive Button where
  | up
  | down
  | left
  | right
  | sel
  deriving DecidableEq, Repr

/-- The `DisplayMgr` fields touched by `handleButtonPress`:
`_currentState` and the `int _menuIndex`. -/
structure DisplayMgrState where
  currentState : ScreenState
  menuIndex : Int
  deriving DecidableEq, Repr

/-- Model of `DisplayMgr::handleButtonPress(int button, DeviceConfig&
config, void (*saveCallback)(const DeviceConfig&))`.

Returns the display state after the call, the (possibly mutated)
config, and `some cfg` when the source invoked `saveCallback(cfg)`
(the Select-commit path of the edit screens), `none` otherwise.

In the edit-screen branch the source dereferences
`target = (_currentState == SCREEN_EDIT_UNIVERSE) ? &config.universe
: &config.numLeds`; its trailing `else` arms (plain
increment/decrement) are unreachable because the enclosing branch
already requires one of the two edit states. -/
def handleButtonPress (st : DisplayMgrState) (button : Button) (config : DeviceConfig) :
    DisplayMgrState × DeviceConfig × Option DeviceConfig :=
  -- 1. Any button interrupts the slideshow (states up to SCREEN_STATUS_SENSORS)
  if st.currentState.toIdx ≤ ScreenState.statusSensors.toIdx then
    ({ currentState := ScreenState.menuMain, menuIndex := 0 }, config, none)
  -- 2. Main menu
  else if st.currentState = ScreenState.menuMain then
    match button with
    | Button.up => ({ st with menuIndex := max 0 (st.menuIndex - 1) }, config, none)
    | Button.down => ({ st with menuIndex := min 2 (st.menuIndex + 1) }, config, none)
    | Button.sel =>
        if st.menuIndex = 0 then
          ({ st with currentState := ScreenState.statusIP }, config, none)
        else if st.menuIndex = 1 then
          ({ st with currentState := ScreenState.editUniverse }, config, none)
        else if st.menuIndex = 2 then
          ({ st with currentState := ScreenState.editNumLeds }, config, none)
        else
          (st, config, none)
    | _ => (st, config, none)
  -- 3. Edit screens
  else if st.currentState = ScreenState.editUniverse ∨
          st.currentState = ScreenState.editNumLeds then
    match button with
    | Button.up =>
        if st.currentState = ScreenState.editUniverse then
          (st,
           if config.universeId < MAX_UNIVERSE then
             { config with universeId := config.universeId + 1 }
           else config,
           none)
        else
          (st,
           if config.numLeds < MAX_NUM_LEDS then
             { config with numLeds := config.numLeds + 1 }
           else config,
           none)
    | Button.down =>
        if st.currentState = ScreenState.editUniverse then
          (st,
           if config.universeId > MIN_UNIVERSE then
             { config with universeId := config.universeId - 1 }
           else config,
           none)
        else
          (st,
           if config.numLeds > MIN_NUM_LEDS then
             { config with numLeds := config.numLeds - 1 }
           else config,
           none)
    | Button.sel =>
        ({ st with currentState := ScreenState.menuMain }, config, some config)
    | _ => (st, config, none)
  else
    (st, config, none)

/-- Deliver a sequence of debounced button events, collecting every
configuration the state machine passed to the save callback. -/
def runButtons (st : DisplayMgrState) (config : DeviceConfig) (buttons : List Button) :
    DisplayMgrState × DeviceConfig × List DeviceConfig :=
  match buttons with
  | [] => (st, config, [])
  | b :: rest =>
    let r1 := handleButtonPress st b config
    let r2 := runButtons r1.1 r1.2.1 rest
    (r2.1, r2.2.1, (r1.2.2.toList) ++ r2.2.2)

/-! ## Producer forwarding (`networkLoop` in src/src/main.cpp) -/

/-- The byte count `networkLoop` passes to `radio.sendDmxPacket` for a
validated frame of `len` channels:
`int bytesToSend = CHAN_PER_LED * deviceConfig.numLeds;
 if (bytesToSend > len) bytesToSend = len;` -/
def bytesToSend (numLeds len : Nat) : Nat :=
  let b := CHAN_PER_LED * numLeds
  if b > len then len else b

/-! ## Helper lemmas -/

theorem xorFoldl_lt (payload : List Nat) (acc : Nat) (hacc : acc < 256)
    (h : ∀ b ∈ payload, b < 256) :
    payload.foldl (fun a b => Nat.xor a b) acc < 256 := by
  induction payload generalizing acc with
  | nil => simpa using hacc
  | cons x xs ih =>
    simp only [List.foldl_cons]
    refine ih _ ?_ fun b hb => h b (List.mem_cons_of_mem _ hb)
    have hx : x < 256 := h x (List.mem_cons_self x xs)
    have : (256 : Nat) = 2 ^ 8 := by norm_num
    rw [this] at hacc hx ⊢
    exact Nat.xor_lt_two_pow hacc hx

theorem xorChecksum_lt (payload : List Nat) (h : ∀ b ∈ payload, b < 256) :
    xorChecksum payload < 256 :=
  xorFoldl_lt payload 0xAA (by norm_num) h

theorem take_length_append {α : Type _} (l : List α) (x : α) :
    (l ++ [x]).take l.length = l := by
  induction l with
  | nil => rfl
  | cons a as ih => simp [ih]

theorem getD_length_append {α : Type _} (l : List α) (x : α) (d : α) :
    (l ++ [x]).getD l.length d = x := by
  induction l with
  | nil => rfl
  | cons a as ih => simp [ih]

theorem readInto_length (prior dg : List Nat)
    (h : prior.length = E131_MAX_PACKET_SIZE) :
    (readInto prior dg).length = E131_MAX_PACKET_SIZE := by
  simp only [readInto, List.length_append, List.length_take, List.length_drop,
    E131_MAX_PACKET_SIZE, E131_HEADER_SIZE, DMX_MAX_CHANNELS] at h ⊢
  omega

/-! ## C1 — declared length vs received length -/

/-- Header-only datagram: exactly the 126 header bytes, universe field
bytes 0x00, 0x81 (universe 129), start code 0, DMP length field bytes
0x02, 0x01 (declared length 513, i.e. 512 channels). -/
def headerOnlyDatagram : List Nat :=
  (List.range 126).map fun i =>
    if i = 114 then 129 else if i = 123 then 2 else if i = 124 then 1 else 0

/-- C1 (failing input): a datagram that delivers zero channel bytes but
declares 512 channels is accepted rather than rejected, and the 512
"channel bytes" handed to the caller are the stale contents of the
persistent packet buffer (here filled with the value 7), bytes that
were never part of the datagram. -/
theorem parse_overdeclared_accepts_stale_bytes :
    headerOnlyDatagram.length = E131_HEADER_SIZE ∧
    (parsePacket (List.replicate 638 7) headerOnlyDatagram 129
        (List.replicate 512 0)).1
      = ParseResult.success 512 (List.replicate 512 7) := by
  constructor
  · rfl
  · rfl

/-! ## C10 — zero length field wraps to 65535 and is clamped to 512 -/

/-- C10: when the 16-bit big-endian length field of an
otherwise-accepted datagram is 0, the `uint16_t` subtraction `field - 1`
wraps to 65535, the safety cap clamps it to 512, and `parsePacket`
returns 512 with 512 copied bytes instead of rejecting the frame or
returning 0. -/
theorem parse_zero_length_field (prior dg : List Nat) (expectedUniverse : Nat)
    (out : List Nat)
    (hprior : prior.length = E131_MAX_PACKET_SIZE)
    (hlen : E131_HEADER_SIZE ≤ dg.length)
    (huni : rxUniverseOf prior dg = expectedUniverse)
    (hsc : startCodeOf prior dg = DMX_STARTCODE)
    (hfield : lengthFieldOf prior dg = 0) :
    (parsePacket prior dg expectedUniverse out).1 =
      ParseResult.success DMX_MAX_CHANNELS
        (((readInto prior dg).drop E131_HEADER_SIZE).take DMX_MAX_CHANNELS) ∧
    (((readInto prior dg).drop E131_HEADER_SIZE).take DMX_MAX_CHANNELS).length
      = DMX_MAX_CHANNELS := by
  have hb := readInto_length prior dg hprior
  have hpos : dg.length > 0 := by
    simp only [E131_HEADER_SIZE] at hlen; omega
  have hnotsmall : ¬ dg.length < E131_HEADER_SIZE := Nat.not_lt.mpr hlen
  constructor
  · simp only [parsePacket, if_pos hpos, if_neg hnotsmall, huni, hsc, hfield]
    norm_num [DMX_MAX_CHANNELS]
  · simp only [List.length_take, List.length_drop, hb,
      E131_MAX_PACKET_SIZE, E131_HEADER_SIZE, DMX_MAX_CHANNELS]
    omega

/-- Witness for C10: an otherwise-valid datagram for universe 129 whose
length field bytes are both 0, over a packet buffer previously filled
with the value 3. -/
theorem parse_zero_length_field_witness :
    (parsePacket (List.replicate 638 3)
        ((List.range 126).map fun i => if i = 114 then 129 else 0) 129
        (List.replicate 512 0)).1 =
      ParseResult.success DMX_MAX_CHANNELS
        (((readInto (List.replicate 638 3)
            ((List.range 126).map fun i => if i = 114 then 129 else 0)).drop
              E131_HEADER_SIZE).take DMX_MAX_CHANNELS) ∧
    (((readInto (List.replicate 638 3)
        ((List.range 126).map fun i => if i = 114 then 129 else 0)).drop
          E131_HEADER_SIZE).take DMX_MAX_CHANNELS).length = DMX_MAX_CHANNELS :=
  parse_zero_length_field _ _ _ _ (by decide) (by decide) (by decide) (by decide) (by decide)

/-! ## C3 — rejection order and absence of side effects -/

/-- C3: the rejection conditions are evaluated in the fixed order
TooSmall (datagram shorter than the 126-byte header), then
UniverseMismatch, then BadStartCode; the first failing check wins and
on every rejection the caller's output channel buffer is returned
unchanged. -/
theorem parse_rejection_order (prior dg : List Nat) (expectedUniverse : Nat)
    (out : List Nat) (hpos : 0 < dg.length) :
    (dg.length < E131_HEADER_SIZE →
      parsePacket prior dg expectedUniverse out = (ParseResult.tooSmall, out)) ∧
    (E131_HEADER_SIZE ≤ dg.length → rxUniverseOf prior dg ≠ expectedUniverse →
      parsePacket prior dg expectedUniverse out = (ParseResult.universeMismatch, out)) ∧
    (E131_HEADER_SIZE ≤ dg.length → rxUniverseOf prior dg = expectedUniverse →
      startCodeOf prior dg ≠ DMX_STARTCODE →
      parsePacket prior dg expectedUniverse out = (ParseResult.badStartCode, out)) := by
  refine ⟨fun h => ?_, fun h1 h2 => ?_, fun h1 h2 h3 => ?_⟩
  · simp [parsePacket, hpos, h]
  · simp [parsePacket, hpos, Nat.not_lt.mpr h1, h2]
  · simp [parsePacket, hpos, Nat.not_lt.mpr h1, h2, h3]

/-- Witness for C3 at the one-byte datagram `[1]`. -/
theorem parse_rejection_order_witness :
    (([1] : List Nat).length < E131_HEADER_SIZE →
      parsePacket [] [1] 0 [9] = (ParseResult.tooSmall, [9])) ∧
    (E131_HEADER_SIZE ≤ ([1] : List Nat).length → rxUniverseOf [] [1] ≠ 0 →
      parsePacket [] [1] 0 [9] = (ParseResult.universeMismatch, [9])) ∧
    (E131_HEADER_SIZE ≤ ([1] : List Nat).length → rxUniverseOf [] [1] = 0 →
      startCodeOf [] [1] ≠ DMX_STARTCODE →
      parsePacket [] [1] 0 [9] = (ParseResult.badStartCode, [9])) :=
  parse_rejection_order [] [1] 0 [9] (by decide)

/-! ## C4 — accepted frames: extracted length and copied bytes -/

/-- C4: for every accepted datagram the extracted channel length equals
the 16-bit big-endian length field minus one, clamped to at most 512
(`DMX_MAX_CHANNELS`), and exactly that many channel bytes, starting at
the fixed header-end offset 126, are copied into the caller's
buffer. -/
theorem parse_success_spec (prior dg : List Nat) (expectedUniverse L : Nat)
    (out : List Nat)
    (hprior : prior.length = E131_MAX_PACKET_SIZE)
    (hlen : E131_HEADER_SIZE ≤ dg.length)
    (huni : rxUniverseOf prior dg = expectedUniverse)
    (hsc : startCodeOf prior dg = DMX_STARTCODE)
    (hL : lengthFieldOf prior dg = L) (hL1 : 1 ≤ L) (hL2 : L ≤ 65535) :
    parsePacket prior dg expectedUniverse out =
      (ParseResult.success (min (L - 1) DMX_MAX_CHANNELS)
        (((readInto prior dg).drop E131_HEADER_SIZE).take (min (L - 1) DMX_MAX_CHANNELS)),
       ((readInto prior dg).drop E131_HEADER_SIZE).take (min (L - 1) DMX_MAX_CHANNELS)
         ++ out.drop (min (L - 1) DMX_MAX_CHANNELS)) ∧
    (((readInto prior dg).drop E131_HEADER_SIZE).take
        (min (L - 1) DMX_MAX_CHANNELS)).length = min (L - 1) DMX_MAX_CHANNELS := by
  have hb := readInto_length prior dg hprior
  have hpos : dg.length > 0 := by
    simp only [E131_HEADER_SIZE] at hlen; omega
  have hwrap : (lengthFieldOf prior dg + 65535) % 65536 = L - 1 := by
    rw [hL]; omega
  have hclamp : (if L - 1 > DMX_MAX_CHANNELS then DMX_MAX_CHANNELS else L - 1)
      = min (L - 1) DMX_MAX_CHANNELS := by
    simp only [DMX_MAX_CHANNELS]
    split <;> omega
  constructor
  · simp only [parsePacket, if_pos hpos, Nat.not_lt.mpr hlen, huni, hsc, hwrap, hclamp]
    simp
  · simp only [List.length_take, List.length_drop, hb, E131_MAX_PACKET_SIZE,
      E131_HEADER_SIZE, DMX_MAX_CHANNELS]
    omega

/-- Scenario datagram from the spec: 126-byte header with universe
field bytes 0x00, 0x81 (universe 129), start code 0, declared length 11
(one start code plus 10 channels), followed by the 10 channel bytes
1 … 10. -/
def scenarioDatagram : List Nat :=
  ((List.range 126).map fun i =>
    if i = 114 then 129 else if i = 124 then 11 else 0) ++
  [1, 2, 3, 4, 5, 6, 7, 8, 9, 10]

/-- Witness for C4: the spec scenario — parsing the scenario datagram
with expected universe 129 yields a validated frame with exactly the
10 channel bytes. -/
theorem parse_success_spec_witness :
    parsePacket (List.replicate 638 0) scenarioDatagram 129 (List.replicate 512 0) =
      (ParseResult.success 10 [1, 2, 3, 4, 5, 6, 7, 8, 9, 10],
       [1, 2, 3, 4, 5, 6, 7, 8, 9, 10] ++ (List.replicate 512 0).drop 10) := by
  have h := (parse_success_spec (List.replicate 638 0) scenarioDatagram 129 11
    (List.replicate 512 0) (by decide) (by decide) (by decide) (by decide)
    (by decide) (by decide) (by decide)).1
  rw [h]
  decide

/-! ## C2 — consume clears the new-data flag exactly once -/

/-- C2: reading the shared snapshot twice with no intervening publish
returns `hasUpdate = false` the second time; the `hasUnseenUpdate`
flag set by `publish` is cleared exactly once, by the consumer's read,
as part of the same observation. -/
theorem consume_idempotent (s : SharedChannelSnapshot) (d : List Nat) (len t : Nat) :
    ((consume (consume s).2).1).1 = false ∧
    ((consume (publish d len t s)).1).1 = true ∧
    ((consume (publish d len t s)).2).hasUnseenUpdate = false :=
  ⟨rfl, rfl, rfl⟩

/-! ## C5 — radio frame wire format -/

/-- C5: for a payload of at most 255 bytes, `sendDmxPacket` writes
exactly the marker `0xAA`, one length byte equal to the payload length,
the payload bytes in order, and one checksum byte equal to the XOR of
`0xAA` and every payload byte in order (a single byte, since the XOR of
bytes is a byte); for a payload longer than 255 bytes it writes nothing
at all. -/
theorem sendDmxPacket_wire_format (payload : List Nat)
    (hbytes : ∀ b ∈ payload, b < 256) :
    (payload.length ≤ 255 →
      sendDmxPacket payload =
        some (0xAA :: payload.length :: (payload ++ [xorChecksum payload])) ∧
      xorChecksum payload < 256) ∧
    (255 < payload.length → sendDmxPacket payload = none) := by
  constructor
  · intro hlen
    exact ⟨by simp [sendDmxPacket, Nat.not_lt.mpr hlen], xorChecksum_lt payload hbytes⟩
  · intro hlen
    simp [sendDmxPacket, hlen]

/-- Witness for C5 at the payload `[1, 2, 3]`. -/
theorem sendDmxPacket_wire_format_witness :
    ((3 : Nat) ≤ 255 →
      sendDmxPacket [1, 2, 3] =
        some (0xAA :: (3 : Nat) :: ([1, 2, 3] ++ [xorChecksum [1, 2, 3]])) ∧
      xorChecksum [1, 2, 3] < 256) ∧
    (255 < (3 : Nat) → sendDmxPacket [1, 2, 3] = none) :=
  sendDmxPacket_wire_format [1, 2, 3] (by decide)

/-! ## C6 — decode inverts encode -/

/-- C6: for every payload of length at most 255, decoding the frame
`sendDmxPacket` emits returns the original payload. -/
theorem decode_encode_roundtrip (payload : List Nat) (hlen : payload.length ≤ 255) :
    ∃ s, sendDmxPacket payload = some s ∧ decodeFrame s = Except.ok payload := by
  refine ⟨0xAA :: payload.length :: (payload ++ [xorChecksum payload]), ?_, ?_⟩
  · simp [sendDmxPacket, Nat.not_lt.mpr hlen]
  · have h1 : (payload ++ [xorChecksum payload]).take payload.length = payload :=
      take_length_append _ _
    have h2 : (payload ++ [xorChecksum payload]).getD payload.length 0 = xorChecksum payload :=
      getD_length_append _ _ _
    simp [decodeFrame, h1, h2]

/-- Witness for C6 at the payload `[10, 20, 30]`. -/
theorem decode_encode_roundtrip_witness :
    ∃ s, sendDmxPacket [10, 20, 30] = some s ∧ decodeFrame s = Except.ok [10, 20, 30] :=
  decode_encode_roundtrip [10, 20, 30] (by decide)

/-! ## C8 — defaults loaded when nothing is stored -/

/-! ## C7 — edit screens clamp the edited fields -/

theorem handleButtonPress_edit_updown (st : DisplayMgrState) (config : DeviceConfig)
    (b : Button)
    (hst : st.currentState = ScreenState.editUniverse ∨
           st.currentState = ScreenState.editNumLeds)
    (hb : b = Button.up ∨ b = Button.down) :
    (handleButtonPress st b config).1 = st ∧
    (handleButtonPress st b config).2.2 = none ∧
    (MIN_UNIVERSE ≤ config.universeId → config.universeId ≤ MAX_UNIVERSE →
      config.numLeds ≤ MAX_NUM_LEDS →
      MIN_UNIVERSE ≤ (handleButtonPress st b config).2.1.universeId ∧
      (handleButtonPress st b config).2.1.universeId ≤ MAX_UNIVERSE ∧
      (handleButtonPress st b config).2.1.numLeds ≤ MAX_NUM_LEDS) := by
  obtain ⟨cs, mi⟩ := st
  simp only [DisplayMgrState.mk.injEq] at hst ⊢
  rcases hst with h | h <;> subst h <;> rcases hb with h | h <;> subst h <;>
    simp only [handleButtonPress, ScreenState.toIdx, MIN_UNIVERSE, MAX_UNIVERSE,
      MAX_NUM_LEDS, MIN_NUM_LEDS] <;>
    norm_num <;>
    split_ifs <;>
    simp_all <;>
    omega

/-- C7: starting from in-range values, no sequence of Up/Down button
events delivered in an edit screen can drive the edited fields out of
range — the universe stays within `[MIN_UNIVERSE, MAX_UNIVERSE]` and
the LED count within `[MIN_NUM_LEDS, MAX_NUM_LEDS]`; out-of-range
presses are silently absorbed, never reported as an error. -/
theorem menu_edit_clamp (st : DisplayMgrState) (config : DeviceConfig)
    (buttons : List Button)
    (hst : st.currentState = ScreenState.editUniverse ∨
           st.currentState = ScreenState.editNumLeds)
    (hb : ∀ b ∈ buttons, b = Button.up ∨ b = Button.down)
    (h1 : MIN_UNIVERSE ≤ config.universeId) (h2 : config.universeId ≤ MAX_UNIVERSE)
    (h3 : MIN_NUM_LEDS ≤ config.numLeds) (h4 : config.numLeds ≤ MAX_NUM_LEDS) :
    MIN_UNIVERSE ≤ (runButtons st config buttons).2.1.universeId ∧
    (runButtons st config buttons).2.1.universeId ≤ MAX_UNIVERSE ∧
    MIN_NUM_LEDS ≤ (runButtons st config buttons).2.1.numLeds ∧
    (runButtons st config buttons).2.1.numLeds ≤ MAX_NUM_LEDS := by
  induction buttons generalizing st config with
  | nil => exact ⟨h1, h2, h3, h4⟩
  | cons b rest ih =>
    obtain ⟨hsame, -, hinv⟩ :=
      handleButtonPress_edit_updown st config b hst (hb b (List.mem_cons_self b rest))
    obtain ⟨g1, g2, g3⟩ := hinv h1 h2 h4
    have hrest : ∀ x ∈ rest, x = Button.up ∨ x = Button.down :=
      fun x hx => hb x (List.mem_cons_of_mem _ hx)
    have hst' : (handleButtonPress st b config).1.currentState = ScreenState.editUniverse ∨
        (handleButtonPress st b config).1.currentState = ScreenState.editNumLeds := by
      rw [hsame]; exact hst
    have := ih (handleButtonPress st b config).1 (handleButtonPress st b config).2.1
      hst' hrest g1 g2 (by simp [MIN_NUM_LEDS]) g3
    simpa [runButtons] using this

/-- Witness for C7: five Up presses then three Down presses in the
universe edit screen, starting from universe 63998, LED count 50. -/
theorem menu_edit_clamp_witness :
    MIN_UNIVERSE ≤ (runButtons ⟨ScreenState.editUniverse, 1⟩
      ⟨63998, 50, 0, false⟩
      [Button.up, Button.up, Button.up, Button.up, Button.up,
       Button.down, Button.down, Button.down]).2.1.universeId ∧
    (runButtons ⟨ScreenState.editUniverse, 1⟩ ⟨63998, 50, 0, false⟩
      [Button.up, Button.up, Button.up, Button.up, Button.up,
       Button.down, Button.down, Button.down]).2.1.universeId ≤ MAX_UNIVERSE ∧
    MIN_NUM_LEDS ≤ (runButtons ⟨ScreenState.editUniverse, 1⟩ ⟨63998, 50, 0, false⟩
      [Button.up, Button.up, Button.up, Button.up, Button.up,
       Button.down, Button.down, Button.down]).2.1.numLeds ∧
    (runButtons ⟨ScreenState.editUniverse, 1⟩ ⟨63998, 50, 0, false⟩
      [Button.up, Button.up, Button.up, Button.up, Button.up,
       Button.down, Button.down, Button.down]).2.1.numLeds ≤ MAX_NUM_LEDS :=
  menu_edit_clamp _ _ _ (Or.inl rfl) (by decide) (by decide) (by decide)
    (by decide) (by decide)

/-! ## C9 — committing an LED-count edit -/

/-- Configuration at the start of the C9 scenario: universe 129, 10
LEDs. -/
def cfgTen : DeviceConfig :=
  { universeId := 129, numLeds := 10, ipAddress := DEFAULT_IP_U32, useDhcp := false }

/-- C9: forty Up presses followed by Select in the LED-count edit
screen, starting from 10 LEDs, trigger exactly one save-callback call,
whose configuration has `numLeds = 50`; afterwards the producer's
forwarded byte count for a validated frame of `len` channels is
`min (3 * 50) len`. -/
theorem led_count_commit_scenario :
    (runButtons ⟨ScreenState.editNumLeds, 2⟩ cfgTen
        (List.replicate 40 Button.up ++ [Button.sel])).2.2
      = [{ cfgTen with numLeds := 50 }] ∧
    (runButtons ⟨ScreenState.editNumLeds, 2⟩ cfgTen
        (List.replicate 40 Button.up ++ [Button.sel])).2.1.numLeds = 50 ∧
    ∀ len : Nat,
      bytesToSend (runButtons ⟨ScreenState.editNumLeds, 2⟩ cfgTen
          (List.replicate 40 Button.up ++ [Button.sel])).2.1.numLeds len
        = min (3 * 50) len := by
  refine ⟨by decide, by decide, fun len => ?_⟩
  have h : (runButtons ⟨ScreenState.editNumLeds, 2⟩ cfgTen
      (List.replicate 40 Button.up ++ [Button.sel])).2.1.numLeds = 50 := by decide
  rw [h]
  simp only [bytesToSend, CHAN_PER_LED]
  split <;> omega

/-- C8: when nothing is stored, `loadConfig` sets universe 129, DHCP
off and the default static IP, but never assigns `numLeds` — on the
zero-initialised global of `main.cpp` the loaded configuration has
`numLeds = 0`, not the documented default of 10. -/
theorem loadConfig_defaults_missing_numLeds :
    loadConfig NvsReadResult.notFound zeroDeviceConfig =
      { universeId := DEFAULT_UNIVERSE, numLeds := 0,
        ipAddress := DEFAULT_IP_U32, useDhcp := false } ∧
    (loadConfig NvsReadResult.notFound zeroDeviceConfig).numLeds ≠ DEFAULT_NUM_LEDS := by
  constructor
  · rfl
  · decide

end CrowdLight
